import Mathlib

/-!
Shallow embedding of the flappy-ball game core (src/flappyball.py).

The source is a single pygame program.  Its simulation core is the per-frame
loop body of FlappyBall.run together with the helper methods reset_game,
hit_object and spawn_pipes.  We embed:

* python floats as exact rationals (the constants 0.75, 0.85, 10.0, -10 are
  all exactly representable; float rounding is not modelled);
* pygame.Rect as a record of four integers; pygame coerces float rectangle
  coordinates with a C integer cast (truncation toward zero), modelled by
  rat_trunc;
* math.sin and math.pi as oracle parameters sinQ and piQ threaded through
  the tick (the idle-screen oscillation is the only place they are used);
* random.randint(50, HEIGHT - 250) as an oracle parameter r of the tick;
* the pygame event queue as a list of GEvent values: space is a K_SPACE
  KEYDOWN, other is any other event (ignored by the core; QUIT terminates
  the outer driver loop and never reaches the state machine).

Rendering (surfaces, gradients, the scrolling ground offset ground_x, text)
is presentation only and mutates no simulation state; it is omitted.
-/

namespace FlappyBall

/-- Window width in pixels (source: self.WIDTH = 400). -/
def WIDTH : Int := 400

/-- Window height in pixels (source: self.HEIGHT = 600). -/
def HEIGHT : Int := 600

/-- Ball diameter (source: self.ball_size = 40). -/
def ball_size : Int := 40

/-- Ball radius (source: self.ball_radius = self.ball_size // 2). -/
def ball_radius : Int := ball_size / 2

/-- Fixed horizontal ball position (source: self.ball_x = self.WIDTH // 4). -/
def ball_x : Int := WIDTH / 4

/-- Downward acceleration per frame (source: self.gravity = 0.75). -/
def gravity : ℚ := 0.75

/-- Upward velocity applied on a space press (source: self.jump_velocity = -10). -/
def jump_velocity : ℚ := -10

/-- Width of each pipe obstacle (source: self.pipe_width = 80). -/
def pipe_width : Int := 80

/-- Horizontal pipe speed in pixels per frame (source: self.pipe_speed = 3). -/
def pipe_speed : Int := 3

/-- Vertical gap between the two pipes of a pair (source: self.pipe_gap = 250). -/
def pipe_gap : Int := 250

/-- Height of the ground strip (source: self.ground_height = 15). -/
def ground_height : Int := 15

/-- Y coordinate of the top of the ground (source: ground_top = HEIGHT - ground_height). -/
def ground_top : Int := HEIGHT - ground_height

/-- Restitution factor of a ground bounce (source: 0.85 in self.ball_vel = -(self.ball_vel * 0.85)). -/
def restitution : ℚ := 0.85

/-- The smallest admissible ceiling margin above the gap: the randint lower
bound in spawn_pipes is 50. -/
def min_ceiling_margin : Int := 50

/-- The floor margin reserved below the gap: the randint upper bound in
spawn_pipes is HEIGHT - 250 = HEIGHT - (0 + pipe_gap), so the reserved floor
margin is 0. -/
def min_floor_margin : Int := 0

/-- Truncation of a rational toward zero, the C integer cast pygame applies to
float rectangle coordinates. -/
def rat_trunc (q : ℚ) : Int := Int.tdiv q.num (Int.ofNat q.den)

/-- An axis-aligned pygame rectangle with integer coordinates. -/
structure Rect where
  x : Int
  y : Int
  w : Int
  h : Int
deriving DecidableEq

/-- pygame Rect.colliderect for normalized rectangles: strict overlap on both
axes (edge contact does not count). -/
def colliderect (a b : Rect) : Bool :=
  decide (a.x < b.x + b.w) && decide (b.x < a.x + a.w) &&
  decide (a.y < b.y + b.h) && decide (b.y < a.y + a.h)

/-- One pipe pair, the dictionary appended by spawn_pipes: x, top_height,
bottom_y and the scored flag. -/
structure Pipe where
  x : Int
  top_height : Int
  bottom_y : Int
  scored : Bool
deriving DecidableEq

/-- The three values of self.state: start, play and game_over. -/
inductive GState
  | start
  | play
  | game_over
deriving DecidableEq

/-- The mutable simulation state of the FlappyBall object: ball position and
velocity, score, high score, pipe list, spawn timer and game state.  The
purely cosmetic fields (ground_x, colors, surfaces) are omitted. -/
structure GameState where
  ball_y : ℚ
  ball_vel : ℚ
  score : Nat
  high_score : Nat
  pipes : List Pipe
  next_pipe_time : Int
  state : GState
deriving DecidableEq

/-- The events the core reacts to: a K_SPACE keydown, or any other event
which the loop body ignores. -/
inductive GEvent
  | space
  | other
deriving DecidableEq

/-- reset_game: recenter the ball, zero the velocity, zero the score, clear
the pipes, force an immediate spawn and enter the play state. -/
def reset_game (g : GameState) : GameState :=
  { g with
    ball_y := ((HEIGHT / 2 : Int) : ℚ)
    ball_vel := 0
    score := 0
    pipes := []
    next_pipe_time := -1500
    state := GState.play }

/-- hit_object: update the high score if beaten and enter the game_over
state. -/
def hit_object (g : GameState) : GameState :=
  { g with
    high_score := if g.score > g.high_score then g.score else g.high_score
    state := GState.game_over }

/-- spawn_pipes given the randint outcome r: append one pipe pair at the
right edge of the screen with top_height r and bottom_y r + pipe_gap. -/
def spawn_pipes (r : Int) (g : GameState) : GameState :=
  { g with
    pipes := g.pipes ++ [{ x := WIDTH, top_height := r, bottom_y := r + pipe_gap, scored := false }] }

/-- The event dispatch of the main loop: space starts a game from the start
or game_over screens and applies the jump impulse while playing; every other
event leaves the state untouched. -/
def handle_event (g : GameState) (e : GEvent) : GameState :=
  match e with
  | GEvent.other => g
  | GEvent.space =>
    match g.state with
    | GState.start => reset_game g
    | GState.play => { g with ball_vel := jump_velocity }
    | GState.game_over => reset_game g

/-- The ball position after one play-state physics step: gravity is added to
the velocity, the candidate position is the old position plus the new
velocity, and a candidate below the ground is clamped to ground_top minus the
radius. -/
def ball_step_y (y v : ℚ) : ℚ :=
  if y + (v + gravity) + (ball_radius : ℚ) > (ground_top : ℚ) then
    (ground_top : ℚ) - (ball_radius : ℚ)
  else y + (v + gravity)

/-- The ball velocity after one play-state physics step: gravity is added,
and on a ground bounce the velocity is flipped and scaled by the restitution
factor 0.85. -/
def ball_step_vel (y v : ℚ) : ℚ :=
  if y + (v + gravity) + (ball_radius : ℚ) > (ground_top : ℚ) then
    -((v + gravity) * restitution)
  else v + gravity

/-- The collision rectangle of the ball at vertical position y (source:
pygame.Rect(ball_x - r, ball_y - r, 2r, 2r); the float coordinate is
truncated by the Rect constructor). -/
def ball_rect (y : ℚ) : Rect :=
  { x := ball_x - ball_radius
    y := rat_trunc (y - (ball_radius : ℚ))
    w := 2 * ball_radius
    h := 2 * ball_radius }

/-- One pipe after the per-frame advance pipe.x -= pipe_speed. -/
def advancePipe (p : Pipe) : Pipe :=
  { p with x := p.x - pipe_speed }

/-- The solid rectangle above the gap of a pipe pair. -/
def top_rect (p : Pipe) : Rect :=
  { x := p.x, y := 0, w := pipe_width, h := p.top_height }

/-- The solid rectangle below the gap of a pipe pair. -/
def bottom_rect (p : Pipe) : Rect :=
  { x := p.x, y := p.bottom_y, w := pipe_width, h := HEIGHT - p.bottom_y }

/-- The collision test of the loop: the ball rectangle strictly overlaps the
above-gap or the below-gap solid rectangle of the pipe. -/
def hitTest (br : Rect) (p : Pipe) : Bool :=
  colliderect br (top_rect p) || colliderect br (bottom_rect p)

/-- The scoring comparison of the loop: the left edge of the ball rectangle
is strictly right of the trailing edge of the pipe.  The left edge of the
ball rectangle is the integer ball_x - ball_radius. -/
def passedTest (p : Pipe) : Bool :=
  decide (ball_x - ball_radius > p.x + pipe_width)

/-- The scoring condition for one pipe on one frame: the ball has passed it
and it has not yet been scored. -/
def newlyScored (p : Pipe) : Bool :=
  passedTest (advancePipe p) && !(advancePipe p).scored

/-- The per-frame evolution of a single pipe record: it is advanced, and if
the scoring condition fires its scored flag is set. -/
def pipeStep (p : Pipe) : Pipe :=
  if newlyScored p then { advancePipe p with scored := true } else advancePipe p

/-- Whether a pipe survives the off-screen retirement check of the loop. -/
def keepPipe (p : Pipe) : Bool :=
  !(decide (p.x + pipe_width < 0))

/-- The body of the for-pipe loop for one pipe: advance it, call hit_object
on a collision with the ball rectangle, increment the score when the scoring
condition fires, and record the updated pipe.  The accumulator carries the
session state and the processed pipes in reverse order. -/
def processPipe (br : Rect) (a : GameState × List Pipe) (p : Pipe) : GameState × List Pipe :=
  let g1 := if hitTest br (advancePipe p) then hit_object a.1 else a.1
  let g2 := if newlyScored p then { g1 with score := g1.score + 1 } else g1
  (g2, pipeStep p :: a.2)

/-- The pipe-management phase of a play frame: run the for-pipe loop over the
current pipes with the ball rectangle br, then drop the pipes that scrolled
off screen. -/
def loop_phase (br : Rect) (g : GameState) : GameState :=
  let res := g.pipes.foldl (processPipe br) (g, ([] : List Pipe))
  { res.1 with pipes := (res.2.reverse).filter keepPipe }

/-- The spawn phase of a play frame: when the timestamp has passed the spawn
deadline, append one new pipe pair and set the deadline 1500 ms ahead. -/
def spawn_phase (t r : Int) (g : GameState) : GameState :=
  if t > g.next_pipe_time then
    { spawn_pipes r g with next_pipe_time := t + 1500 }
  else g

/-- One play-state simulation frame: physics integration of the ball, the
for-pipe loop with retirement, then the spawn check.  t is the timestamp,
r the randint outcome used if a spawn happens. -/
def tick_play (t r : Int) (g : GameState) : GameState :=
  spawn_phase t r
    (loop_phase (ball_rect (ball_step_y g.ball_y g.ball_vel))
      { g with
        ball_y := ball_step_y g.ball_y g.ball_vel
        ball_vel := ball_step_vel g.ball_y g.ball_vel })

/-- The idle-screen floating animation, run while the state is not play:
the ball vertical position is recomputed from the timestamp alone as
HEIGHT // 2 + 10 * sin((t mod 800) * 2 * pi / 800), with sinQ and piQ the
oracles for math.sin and math.pi. -/
def idle_float (sinQ : ℚ → ℚ) (piQ : ℚ) (t : Int) (g : GameState) : GameState :=
  { g with ball_y := ((HEIGHT / 2 : Int) : ℚ) + 10 * sinQ ((((t % 800) : Int) : ℚ) * 2 * piQ / 800) }

/-- One full iteration of the main loop at timestamp t: consume the pending
events, run the idle floating animation when not playing, then run the
simulation frame when playing. -/
def on_tick (sinQ : ℚ → ℚ) (piQ : ℚ) (t r : Int) (events : List GEvent) (g : GameState) :
    GameState :=
  let g1 := events.foldl handle_event g
  let g2 := if g1.state = GState.play then g1 else idle_float sinQ piQ t g1
  if g2.state = GState.play then tick_play t r g2 else g2

/-- The scored flag as a count: 1 when set, 0 otherwise. -/
def scoredNat (p : Pipe) : Nat :=
  if p.scored then 1 else 0

/-- The score contribution of one pipe on one frame. -/
def contrib (p : Pipe) : Nat :=
  if newlyScored p then 1 else 0

/-- The evolution of one pipe record over n consecutive play frames in which
it stays in the list. -/
def pipeIter (p : Pipe) : Nat → Pipe
  | 0 => p
  | n + 1 => pipeStep (pipeIter p n)

/-- The total score contributed by one pipe over its first n frames. -/
def contribSum (p : Pipe) : Nat → Nat
  | 0 => 0
  | n + 1 => contribSum p n + contrib (pipeIter p n)

end FlappyBall

/-! Field lemmas for the elementary operations. -/

namespace FlappyBall

lemma advancePipe_scored (p : Pipe) : (advancePipe p).scored = p.scored := rfl

lemma advancePipe_x (p : Pipe) : (advancePipe p).x = p.x - pipe_speed := rfl

lemma hit_object_score (g : GameState) : (hit_object g).score = g.score := rfl

lemma hit_object_state (g : GameState) : (hit_object g).state = GState.game_over := rfl

lemma hit_object_ball_y (g : GameState) : (hit_object g).ball_y = g.ball_y := rfl

lemma hit_object_ball_vel (g : GameState) : (hit_object g).ball_vel = g.ball_vel := rfl

lemma hit_object_pipes (g : GameState) : (hit_object g).pipes = g.pipes := rfl

lemma hit_object_next (g : GameState) : (hit_object g).next_pipe_time = g.next_pipe_time := rfl

lemma hit_object_high (g : GameState) :
    (hit_object g).high_score = max g.high_score g.score := by
  show (if g.score > g.high_score then g.score else g.high_score) = max g.high_score g.score
  split <;> omega

lemma idle_float_state (sinQ : ℚ → ℚ) (piQ : ℚ) (t : Int) (g : GameState) :
    (idle_float sinQ piQ t g).state = g.state := rfl

lemma idle_float_high (sinQ : ℚ → ℚ) (piQ : ℚ) (t : Int) (g : GameState) :
    (idle_float sinQ piQ t g).high_score = g.high_score := rfl

lemma handle_event_high (g : GameState) (e : GEvent) :
    (handle_event g e).high_score = g.high_score := by
  cases e with
  | other => rfl
  | space => cases hs : g.state <;> simp [handle_event, hs, reset_game]

lemma foldl_handle_event_high :
    ∀ (evs : List GEvent) (g : GameState),
      (evs.foldl handle_event g).high_score = g.high_score := by
  intro evs
  induction evs with
  | nil => intro g; rfl
  | cons e evs ih => intro g; rw [List.foldl_cons, ih, handle_event_high]

lemma foldl_handle_event_nospace :
    ∀ (evs : List GEvent) (g : GameState),
      (∀ e ∈ evs, e ≠ GEvent.space) → evs.foldl handle_event g = g := by
  intro evs
  induction evs with
  | nil => intro g _; rfl
  | cons e evs ih =>
    intro g h
    have he : e = GEvent.other := by
      cases e with
      | space => exact absurd rfl (h GEvent.space (List.mem_cons_self _ _))
      | other => rfl
    rw [List.foldl_cons, he]
    exact ih g (fun x hx => h x (List.mem_cons_of_mem _ hx))

/-! Per-pipe step lemmas for the loop body. -/

lemma processPipe_snd (br : Rect) (a : GameState × List Pipe) (p : Pipe) :
    (processPipe br a p).2 = pipeStep p :: a.2 := rfl

lemma processPipe_fst_score (br : Rect) (a : GameState × List Pipe) (p : Pipe) :
    (processPipe br a p).1.score = a.1.score + (if newlyScored p then 1 else 0) := by
  cases h1 : hitTest br (advancePipe p) <;> cases h2 : newlyScored p <;>
    simp [processPipe, hit_object, h1, h2]

lemma processPipe_fst_state (br : Rect) (a : GameState × List Pipe) (p : Pipe) :
    (processPipe br a p).1.state =
      if hitTest br (advancePipe p) then GState.game_over else a.1.state := by
  cases h1 : hitTest br (advancePipe p) <;> cases h2 : newlyScored p <;>
    simp [processPipe, hit_object, h1, h2]

lemma processPipe_fst_high_of_hit (br : Rect) (a : GameState × List Pipe) (p : Pipe)
    (h : hitTest br (advancePipe p) = true) :
    (processPipe br a p).1.high_score = max a.1.high_score a.1.score := by
  cases h2 : newlyScored p <;>
    simp [processPipe, h, h2, hit_object_high]

lemma processPipe_fst_high_of_miss (br : Rect) (a : GameState × List Pipe) (p : Pipe)
    (h : hitTest br (advancePipe p) = false) :
    (processPipe br a p).1.high_score = a.1.high_score := by
  cases h2 : newlyScored p <;> simp [processPipe, h, h2]

lemma processPipe_fst_high_le (br : Rect) (a : GameState × List Pipe) (p : Pipe) :
    a.1.high_score ≤ (processPipe br a p).1.high_score := by
  cases h1 : hitTest br (advancePipe p) with
  | false => rw [processPipe_fst_high_of_miss br a p h1]
  | true => rw [processPipe_fst_high_of_hit br a p h1]; exact le_max_left _ _

lemma processPipe_fst_ball_y (br : Rect) (a : GameState × List Pipe) (p : Pipe) :
    (processPipe br a p).1.ball_y = a.1.ball_y := by
  cases h1 : hitTest br (advancePipe p) <;> cases h2 : newlyScored p <;>
    simp [processPipe, hit_object, h1, h2]

lemma processPipe_fst_ball_vel (br : Rect) (a : GameState × List Pipe) (p : Pipe) :
    (processPipe br a p).1.ball_vel = a.1.ball_vel := by
  cases h1 : hitTest br (advancePipe p) <;> cases h2 : newlyScored p <;>
    simp [processPipe, hit_object, h1, h2]

lemma processPipe_fst_next (br : Rect) (a : GameState × List Pipe) (p : Pipe) :
    (processPipe br a p).1.next_pipe_time = a.1.next_pipe_time := by
  cases h1 : hitTest br (advancePipe p) <;> cases h2 : newlyScored p <;>
    simp [processPipe, hit_object, h1, h2]

lemma processPipe_fst_pipes (br : Rect) (a : GameState × List Pipe) (p : Pipe) :
    (processPipe br a p).1.pipes = a.1.pipes := by
  cases h1 : hitTest br (advancePipe p) <;> cases h2 : newlyScored p <;>
    simp [processPipe, hit_object, h1, h2]

end FlappyBall

/-! Characterization of the for-pipe loop as a fold. -/

namespace FlappyBall

lemma foldl_processPipe_snd (br : Rect) :
    ∀ (ps : List Pipe) (a : GameState × List Pipe),
      (ps.foldl (processPipe br) a).2 = (ps.map pipeStep).reverse ++ a.2 := by
  intro ps
  induction ps with
  | nil => intro a; simp
  | cons p ps ih =>
    intro a
    rw [List.foldl_cons, ih, processPipe_snd]
    simp

lemma foldl_processPipe_score (br : Rect) :
    ∀ (ps : List Pipe) (a : GameState × List Pipe),
      (ps.foldl (processPipe br) a).1.score = a.1.score + ps.countP newlyScored := by
  intro ps
  induction ps with
  | nil => intro a; simp
  | cons p ps ih =>
    intro a
    rw [List.foldl_cons, ih, processPipe_fst_score, List.countP_cons]
    by_cases h : newlyScored p <;> simp [h] <;> omega

lemma foldl_processPipe_state (br : Rect) :
    ∀ (ps : List Pipe) (a : GameState × List Pipe),
      (ps.foldl (processPipe br) a).1.state =
        if ps.any (fun p => hitTest br (advancePipe p)) then GState.game_over
        else a.1.state := by
  intro ps
  induction ps with
  | nil => intro a; simp
  | cons p ps ih =>
    intro a
    rw [List.foldl_cons, ih, processPipe_fst_state, List.any_cons]
    cases h1 : hitTest br (advancePipe p) <;>
      cases h2 : ps.any (fun p => hitTest br (advancePipe p)) <;> simp [h1, h2]

lemma foldl_processPipe_high_le (br : Rect) :
    ∀ (ps : List Pipe) (a : GameState × List Pipe),
      a.1.high_score ≤ (ps.foldl (processPipe br) a).1.high_score := by
  intro ps
  induction ps with
  | nil => intro a; exact le_refl _
  | cons p ps ih =>
    intro a
    rw [List.foldl_cons]
    exact le_trans (processPipe_fst_high_le br a p) (ih _)

lemma foldl_processPipe_high_nohit (br : Rect) :
    ∀ (ps : List Pipe) (a : GameState × List Pipe),
      (∀ p ∈ ps, hitTest br (advancePipe p) = false) →
      (ps.foldl (processPipe br) a).1.high_score = a.1.high_score := by
  intro ps
  induction ps with
  | nil => intro a _; rfl
  | cons p ps ih =>
    intro a h
    rw [List.foldl_cons, ih _ (fun q hq => h q (List.mem_cons_of_mem _ hq)),
      processPipe_fst_high_of_miss br a p (h p (List.mem_cons_self _ _))]

lemma foldl_processPipe_ball_y (br : Rect) :
    ∀ (ps : List Pipe) (a : GameState × List Pipe),
      (ps.foldl (processPipe br) a).1.ball_y = a.1.ball_y := by
  intro ps
  induction ps with
  | nil => intro a; rfl
  | cons p ps ih => intro a; rw [List.foldl_cons, ih, processPipe_fst_ball_y]

lemma foldl_processPipe_ball_vel (br : Rect) :
    ∀ (ps : List Pipe) (a : GameState × List Pipe),
      (ps.foldl (processPipe br) a).1.ball_vel = a.1.ball_vel := by
  intro ps
  induction ps with
  | nil => intro a; rfl
  | cons p ps ih => intro a; rw [List.foldl_cons, ih, processPipe_fst_ball_vel]

lemma foldl_processPipe_next (br : Rect) :
    ∀ (ps : List Pipe) (a : GameState × List Pipe),
      (ps.foldl (processPipe br) a).1.next_pipe_time = a.1.next_pipe_time := by
  intro ps
  induction ps with
  | nil => intro a; rfl
  | cons p ps ih => intro a; rw [List.foldl_cons, ih, processPipe_fst_next]

lemma foldl_processPipe_pipes (br : Rect) :
    ∀ (ps : List Pipe) (a : GameState × List Pipe),
      (ps.foldl (processPipe br) a).1.pipes = a.1.pipes := by
  intro ps
  induction ps with
  | nil => intro a; rfl
  | cons p ps ih => intro a; rw [List.foldl_cons, ih, processPipe_fst_pipes]

lemma foldl_processPipe_high_first (br : Rect) (l₁ : List Pipe) (p : Pipe) (l₂ : List Pipe)
    (a : GameState × List Pipe)
    (h1 : ∀ q ∈ l₁, hitTest br (advancePipe q) = false)
    (hp : hitTest br (advancePipe p) = true)
    (h2 : ∀ q ∈ l₂, hitTest br (advancePipe q) = false) :
    ((l₁ ++ p :: l₂).foldl (processPipe br) a).1.high_score =
      max a.1.high_score (a.1.score + l₁.countP newlyScored) := by
  rw [List.foldl_append, List.foldl_cons,
    foldl_processPipe_high_nohit br l₂ _ h2,
    processPipe_fst_high_of_hit br _ p hp,
    foldl_processPipe_high_nohit br l₁ a h1,
    foldl_processPipe_score br l₁ a]

end FlappyBall

/-! Characterization of the three phases of a play frame. -/

namespace FlappyBall

lemma loop_phase_score (br : Rect) (g : GameState) :
    (loop_phase br g).score = g.score + g.pipes.countP newlyScored := by
  show (g.pipes.foldl (processPipe br) (g, [])).1.score = _
  rw [foldl_processPipe_score]

lemma loop_phase_state (br : Rect) (g : GameState) :
    (loop_phase br g).state =
      if g.pipes.any (fun p => hitTest br (advancePipe p)) then GState.game_over
      else g.state := by
  show (g.pipes.foldl (processPipe br) (g, [])).1.state = _
  rw [foldl_processPipe_state]

lemma loop_phase_pipes (br : Rect) (g : GameState) :
    (loop_phase br g).pipes = (g.pipes.map pipeStep).filter keepPipe := by
  show ((g.pipes.foldl (processPipe br) (g, [])).2.reverse).filter keepPipe = _
  rw [foldl_processPipe_snd]
  simp

lemma loop_phase_ball_y (br : Rect) (g : GameState) :
    (loop_phase br g).ball_y = g.ball_y := by
  show (g.pipes.foldl (processPipe br) (g, [])).1.ball_y = _
  rw [foldl_processPipe_ball_y]

lemma loop_phase_ball_vel (br : Rect) (g : GameState) :
    (loop_phase br g).ball_vel = g.ball_vel := by
  show (g.pipes.foldl (processPipe br) (g, [])).1.ball_vel = _
  rw [foldl_processPipe_ball_vel]

lemma loop_phase_next (br : Rect) (g : GameState) :
    (loop_phase br g).next_pipe_time = g.next_pipe_time := by
  show (g.pipes.foldl (processPipe br) (g, [])).1.next_pipe_time = _
  rw [foldl_processPipe_next]

lemma loop_phase_high_le (br : Rect) (g : GameState) :
    g.high_score ≤ (loop_phase br g).high_score := by
  show g.high_score ≤ (g.pipes.foldl (processPipe br) (g, [])).1.high_score
  exact foldl_processPipe_high_le br g.pipes (g, [])

lemma loop_phase_high_nohit (br : Rect) (g : GameState)
    (h : ∀ p ∈ g.pipes, hitTest br (advancePipe p) = false) :
    (loop_phase br g).high_score = g.high_score := by
  show (g.pipes.foldl (processPipe br) (g, [])).1.high_score = _
  exact foldl_processPipe_high_nohit br g.pipes (g, []) h

lemma spawn_phase_score (t r : Int) (g : GameState) :
    (spawn_phase t r g).score = g.score := by
  rw [spawn_phase]; split <;> rfl

lemma spawn_phase_state (t r : Int) (g : GameState) :
    (spawn_phase t r g).state = g.state := by
  rw [spawn_phase]; split <;> rfl

lemma spawn_phase_high (t r : Int) (g : GameState) :
    (spawn_phase t r g).high_score = g.high_score := by
  rw [spawn_phase]; split <;> rfl

lemma spawn_phase_ball_y (t r : Int) (g : GameState) :
    (spawn_phase t r g).ball_y = g.ball_y := by
  rw [spawn_phase]; split <;> rfl

lemma spawn_phase_ball_vel (t r : Int) (g : GameState) :
    (spawn_phase t r g).ball_vel = g.ball_vel := by
  rw [spawn_phase]; split <;> rfl

lemma spawn_phase_pipes (t r : Int) (g : GameState) :
    (spawn_phase t r g).pipes =
      if t > g.next_pipe_time then
        g.pipes ++ [{ x := WIDTH, top_height := r, bottom_y := r + pipe_gap, scored := false }]
      else g.pipes := by
  rw [spawn_phase]; split <;> rfl

lemma spawn_phase_next (t r : Int) (g : GameState) :
    (spawn_phase t r g).next_pipe_time =
      if t > g.next_pipe_time then t + 1500 else g.next_pipe_time := by
  rw [spawn_phase]; split <;> rfl

end FlappyBall

/-! Characterization of a full play frame and of a full loop iteration. -/

namespace FlappyBall

lemma tick_play_ball_y (t r : Int) (g : GameState) :
    (tick_play t r g).ball_y = ball_step_y g.ball_y g.ball_vel := by
  rw [tick_play, spawn_phase_ball_y, loop_phase_ball_y]

lemma tick_play_ball_vel (t r : Int) (g : GameState) :
    (tick_play t r g).ball_vel = ball_step_vel g.ball_y g.ball_vel := by
  rw [tick_play, spawn_phase_ball_vel, loop_phase_ball_vel]

lemma tick_play_score (t r : Int) (g : GameState) :
    (tick_play t r g).score = g.score + g.pipes.countP newlyScored := by
  rw [tick_play, spawn_phase_score, loop_phase_score]

lemma tick_play_state (t r : Int) (g : GameState) :
    (tick_play t r g).state =
      if g.pipes.any
        (fun p => hitTest (ball_rect (ball_step_y g.ball_y g.ball_vel)) (advancePipe p))
      then GState.game_over else g.state := by
  rw [tick_play, spawn_phase_state, loop_phase_state]

lemma tick_play_next (t r : Int) (g : GameState) :
    (tick_play t r g).next_pipe_time =
      if t > g.next_pipe_time then t + 1500 else g.next_pipe_time := by
  rw [tick_play, spawn_phase_next, loop_phase_next]

lemma tick_play_pipes (t r : Int) (g : GameState) :
    (tick_play t r g).pipes =
      if t > g.next_pipe_time then
        (g.pipes.map pipeStep).filter keepPipe ++
          [{ x := WIDTH, top_height := r, bottom_y := r + pipe_gap, scored := false }]
      else (g.pipes.map pipeStep).filter keepPipe := by
  rw [tick_play, spawn_phase_pipes, loop_phase_next, loop_phase_pipes]

lemma tick_play_high_le (t r : Int) (g : GameState) :
    g.high_score ≤ (tick_play t r g).high_score := by
  rw [tick_play, spawn_phase_high]
  exact loop_phase_high_le (ball_rect (ball_step_y g.ball_y g.ball_vel))
    { g with
      ball_y := ball_step_y g.ball_y g.ball_vel
      ball_vel := ball_step_vel g.ball_y g.ball_vel }

lemma tick_play_high_nohit (t r : Int) (g : GameState)
    (h : ∀ p ∈ g.pipes,
      hitTest (ball_rect (ball_step_y g.ball_y g.ball_vel)) (advancePipe p) = false) :
    (tick_play t r g).high_score = g.high_score := by
  rw [tick_play, spawn_phase_high]
  exact loop_phase_high_nohit _ _ h

lemma tick_play_high_first (t r : Int) (g : GameState) (l₁ : List Pipe) (p : Pipe)
    (l₂ : List Pipe) (hsplit : g.pipes = l₁ ++ p :: l₂)
    (h1 : ∀ q ∈ l₁,
      hitTest (ball_rect (ball_step_y g.ball_y g.ball_vel)) (advancePipe q) = false)
    (hp : hitTest (ball_rect (ball_step_y g.ball_y g.ball_vel)) (advancePipe p) = true)
    (h2 : ∀ q ∈ l₂,
      hitTest (ball_rect (ball_step_y g.ball_y g.ball_vel)) (advancePipe q) = false) :
    (tick_play t r g).high_score = max g.high_score (g.score + l₁.countP newlyScored) := by
  rw [tick_play, spawn_phase_high]
  show ((let b := { g with
      ball_y := ball_step_y g.ball_y g.ball_vel
      ball_vel := ball_step_vel g.ball_y g.ball_vel };
    b.pipes.foldl (processPipe (ball_rect (ball_step_y g.ball_y g.ball_vel)))
      (b, [])).1).high_score = _
  show ((g.pipes.foldl (processPipe (ball_rect (ball_step_y g.ball_y g.ball_vel)))
      ({ g with
        ball_y := ball_step_y g.ball_y g.ball_vel
        ball_vel := ball_step_vel g.ball_y g.ball_vel }, [])).1).high_score = _
  rw [hsplit]
  exact foldl_processPipe_high_first _ l₁ p l₂ _ h1 hp h2

lemma on_tick_eq_tick_play (sinQ : ℚ → ℚ) (piQ : ℚ) (t r : Int) (evs : List GEvent)
    (g : GameState) (h : (evs.foldl handle_event g).state = GState.play) :
    on_tick sinQ piQ t r evs g = tick_play t r (evs.foldl handle_event g) := by
  unfold on_tick
  simp [h]

lemma on_tick_eq_idle (sinQ : ℚ → ℚ) (piQ : ℚ) (t r : Int) (evs : List GEvent)
    (g : GameState) (h : (evs.foldl handle_event g).state ≠ GState.play) :
    on_tick sinQ piQ t r evs g = idle_float sinQ piQ t (evs.foldl handle_event g) := by
  unfold on_tick
  simp [h, idle_float_state]

end FlappyBall

/-! Evolution of the scored flag of a single pipe. -/

namespace FlappyBall

lemma pipeStep_scored (p : Pipe) :
    (pipeStep p).scored = (p.scored || passedTest (advancePipe p)) := by
  unfold pipeStep newlyScored
  rw [advancePipe_scored]
  cases hs : p.scored <;> cases hp : passedTest (advancePipe p) <;>
    simp [hs, hp, advancePipe_scored]

lemma pipeStep_scored_mono (p : Pipe) (h : p.scored = true) : (pipeStep p).scored = true := by
  rw [pipeStep_scored, h, Bool.true_or]

lemma contrib_add (p : Pipe) : scoredNat p + contrib p = scoredNat (pipeStep p) := by
  unfold scoredNat contrib newlyScored
  rw [pipeStep_scored, advancePipe_scored]
  cases hs : p.scored <;> cases hp : passedTest (advancePipe p) <;> simp [hs, hp]

lemma pipeIter_succ_scored (p : Pipe) (n : Nat) (h : (pipeIter p n).scored = true) :
    (pipeIter p (n + 1)).scored = true := by
  show (pipeStep (pipeIter p n)).scored = true
  exact pipeStep_scored_mono _ h

lemma contribSum_telescope (p : Pipe) : ∀ n : Nat,
    scoredNat p + contribSum p n = scoredNat (pipeIter p n) := by
  intro n
  induction n with
  | zero => simp [contribSum, pipeIter]
  | succ n ih =>
    have h1 := contrib_add (pipeIter p n)
    show scoredNat p + (contribSum p n + contrib (pipeIter p n)) =
      scoredNat (pipeStep (pipeIter p n))
    omega

lemma scoredNat_le_one (p : Pipe) : scoredNat p ≤ 1 := by
  unfold scoredNat; split <;> omega

lemma contribSum_le_one (p : Pipe) (n : Nat) : contribSum p n ≤ 1 := by
  have h1 := contribSum_telescope p n
  have h2 := scoredNat_le_one (pipeIter p n)
  omega

lemma pipeIter_scored_of_le (p : Pipe) {n m : Nat} (h : n ≤ m)
    (hs : (pipeIter p n).scored = true) : (pipeIter p m).scored = true := by
  induction h with
  | refl => exact hs
  | step h2 ih => exact pipeIter_succ_scored p _ ih

lemma contribSum_eq_one_of (p : Pipe) (h0 : p.scored = false)
    (h1 : (pipeIter p 1).scored = true) :
    ∀ n : Nat, 1 ≤ n → contribSum p n = 1 := by
  intro n hn
  have ht := contribSum_telescope p n
  have hm := pipeIter_scored_of_le p hn h1
  have e1 : scoredNat p = 0 := by unfold scoredNat; rw [h0]; rfl
  have e2 : scoredNat (pipeIter p n) = 1 := by unfold scoredNat; rw [hm]; rfl
  omega

end FlappyBall

/-! Claim theorems. -/

namespace FlappyBall

/-- C1: on a loop iteration whose post-event state is play, the session ends
in the game_over state exactly when the ball rectangle (after the physics
step, ground bounce included) strictly overlaps the above-gap or below-gap
solid rectangle of some advanced pipe; with no such overlap the state stays
play (a ground bounce alone never ends the game), and the score of the
iteration is the old score plus the number of newly passed pipes, computed
independently of any collision (a score increment is never rolled back). -/
theorem c1_game_over_iff_obstacle_hit (sinQ : ℚ → ℚ) (piQ : ℚ) (t r : Int)
    (evs : List GEvent) (g : GameState)
    (h : (evs.foldl handle_event g).state = GState.play) :
    ((on_tick sinQ piQ t r evs g).state = GState.game_over ↔
      ∃ p ∈ (evs.foldl handle_event g).pipes,
        hitTest (ball_rect (ball_step_y (evs.foldl handle_event g).ball_y
          (evs.foldl handle_event g).ball_vel)) (advancePipe p) = true)
    ∧ (on_tick sinQ piQ t r evs g).score =
        (evs.foldl handle_event g).score +
          (evs.foldl handle_event g).pipes.countP newlyScored := by
  rw [on_tick_eq_tick_play sinQ piQ t r evs g h]
  refine ⟨?_, tick_play_score t r (evs.foldl handle_event g)⟩
  rw [tick_play_state, h, ← List.any_eq_true]
  cases hany : (evs.foldl handle_event g).pipes.any
      (fun p => hitTest (ball_rect (ball_step_y (evs.foldl handle_event g).ball_y
        (evs.foldl handle_event g).ball_vel)) (advancePipe p)) <;>
    simp [hany]

set_option maxRecDepth 400000 in
/-- C1 witness: a concrete falling ball at height 560 overlaps the below-gap
rectangle of the pipe at x 103 after its advance, and the tick ends the
session. -/
theorem c1_witness :
    (on_tick (fun _ => 0) 0 0 0 []
      ⟨560, 0, 0, 0, [⟨103, 100, 350, false⟩], 1000000, GState.play⟩).state =
      GState.game_over :=
  (c1_game_over_iff_obstacle_hit (fun _ => 0) 0 0 0 []
      ⟨560, 0, 0, 0, [⟨103, 100, 350, false⟩], 1000000, GState.play⟩
      (by with_unfolding_all decide)).1.mpr
    ⟨⟨103, 100, 350, false⟩, by with_unfolding_all decide, by with_unfolding_all decide⟩

/-- C2: on a loop iteration whose post-event state is play, the ball ends the
iteration with position_y + radius at most ground_top: the bounce clamp keeps
the ball above the ground line. -/
theorem c2_ground_clamp (sinQ : ℚ → ℚ) (piQ : ℚ) (t r : Int)
    (evs : List GEvent) (g : GameState)
    (h : (evs.foldl handle_event g).state = GState.play) :
    (on_tick sinQ piQ t r evs g).ball_y + (ball_radius : ℚ) ≤ (ground_top : ℚ) := by
  rw [on_tick_eq_tick_play sinQ piQ t r evs g h, tick_play_ball_y]
  unfold ball_step_y
  split
  · linarith
  · rename_i h2
    exact le_of_not_lt h2

set_option maxRecDepth 400000 in
/-- C2 witness: a ball at height 580 falling with post-gravity velocity 10
is clamped to the ground line on this tick. -/
theorem c2_witness :
    (on_tick (fun _ => 0) 0 0 0 []
      ⟨580, 9.25, 0, 0, [], 1000000, GState.play⟩).ball_y + (ball_radius : ℚ) ≤
      (ground_top : ℚ) :=
  c2_ground_clamp (fun _ => 0) 0 0 0 []
    ⟨580, 9.25, 0, 0, [], 1000000, GState.play⟩ (by with_unfolding_all decide)

/-- C3: a play frame updates the ball exactly by the integration step: the
position becomes ball_step_y and the velocity ball_step_vel of the pre-frame
values, where ball_step_y adds gravity to the velocity, adds the new velocity
to the position and clamps a below-ground candidate to ground_top - radius,
and ball_step_vel flips a bouncing velocity scaled by the restitution 0.85;
in particular a post-gravity downward velocity of 10 that would cross the
ground yields position ground_top - radius and outgoing velocity -8.5. -/
theorem c3_physics_order (sinQ : ℚ → ℚ) (piQ : ℚ) (t r : Int)
    (evs : List GEvent) (g : GameState)
    (h : (evs.foldl handle_event g).state = GState.play) :
    ((on_tick sinQ piQ t r evs g).ball_y =
        ball_step_y (evs.foldl handle_event g).ball_y (evs.foldl handle_event g).ball_vel
      ∧ (on_tick sinQ piQ t r evs g).ball_vel =
        ball_step_vel (evs.foldl handle_event g).ball_y (evs.foldl handle_event g).ball_vel)
    ∧ (∀ y v : ℚ,
        ball_step_y y v =
          if y + (v + gravity) + (ball_radius : ℚ) > (ground_top : ℚ) then
            (ground_top : ℚ) - (ball_radius : ℚ)
          else y + (v + gravity))
    ∧ (∀ y v : ℚ,
        ball_step_vel y v =
          if y + (v + gravity) + (ball_radius : ℚ) > (ground_top : ℚ) then
            -((v + gravity) * restitution)
          else v + gravity)
    ∧ restitution = 0.85
    ∧ (∀ y v : ℚ, v + gravity = 10 → y + 10 + (ball_radius : ℚ) > (ground_top : ℚ) →
        ball_step_y y v = (ground_top : ℚ) - (ball_radius : ℚ) ∧
          ball_step_vel y v = -8.5) := by
  refine ⟨?_, fun y v => rfl, fun y v => rfl, rfl, ?_⟩
  · rw [on_tick_eq_tick_play sinQ piQ t r evs g h, tick_play_ball_y, tick_play_ball_vel]
    exact ⟨rfl, rfl⟩
  · intro y v h1 h2
    have hc : y + (v + gravity) + (ball_radius : ℚ) > (ground_top : ℚ) := by
      rw [h1]; exact h2
    constructor
    · unfold ball_step_y
      rw [if_pos hc]
    · unfold ball_step_vel
      rw [if_pos hc, h1]
      norm_num [restitution]

set_option maxRecDepth 400000 in
/-- C3 witness: the incoming velocity 9.25 becomes 10 after gravity, the ball
at height 580 crosses the ground, and the step yields the clamped position
and outgoing velocity -8.5. -/
theorem c3_witness :
    ((9.25 : ℚ) + gravity = 10 ∧ (580 : ℚ) + 10 + (ball_radius : ℚ) > (ground_top : ℚ))
    ∧ ball_step_y 580 9.25 = (ground_top : ℚ) - (ball_radius : ℚ)
    ∧ ball_step_vel 580 9.25 = -8.5 :=
  ⟨⟨by with_unfolding_all decide, by with_unfolding_all decide⟩,
    (c3_physics_order (fun _ => 0) 0 0 0 []
        ⟨580, 9.25, 0, 0, [], 1000000, GState.play⟩
        (by with_unfolding_all decide)).2.2.2.2 580 9.25
      (by with_unfolding_all decide) (by with_unfolding_all decide)⟩

end FlappyBall

namespace FlappyBall

/-- C4: the scored flag of a pipe after one frame is its old flag or-ed with
the passed test, so it flips false to true at most once and never back; for
an unscored pipe the frame contributes exactly one point exactly when the
left edge of the ball rectangle has passed the trailing edge of the advanced
pipe; over any number of frames the total contribution of one pipe telescopes
to its flag change and is at most one; and the score of a play frame is the
old score plus one per newly passed pipe. -/
theorem c4_scored_once :
    (∀ p : Pipe, (pipeStep p).scored = (p.scored || passedTest (advancePipe p)))
    ∧ (∀ p : Pipe, p.scored = false →
        (contrib p = 1 ↔ passedTest (advancePipe p) = true))
    ∧ (∀ (p : Pipe) (n : Nat),
        (pipeIter p n).scored = true → (pipeIter p (n + 1)).scored = true)
    ∧ (∀ (p : Pipe) (n : Nat), scoredNat p + contribSum p n = scoredNat (pipeIter p n))
    ∧ (∀ (p : Pipe) (n : Nat), contribSum p n ≤ 1)
    ∧ (∀ (sinQ : ℚ → ℚ) (piQ : ℚ) (t r : Int) (evs : List GEvent) (g : GameState),
        (evs.foldl handle_event g).state = GState.play →
        (on_tick sinQ piQ t r evs g).score =
          (evs.foldl handle_event g).score +
            (evs.foldl handle_event g).pipes.countP newlyScored) := by
  refine ⟨pipeStep_scored, ?_, pipeIter_succ_scored, contribSum_telescope,
    contribSum_le_one, ?_⟩
  · intro p h0
    unfold contrib newlyScored
    rw [advancePipe_scored, h0]
    cases hp : passedTest (advancePipe p) <;> simp [hp]
  · intro sinQ piQ t r evs g h
    rw [on_tick_eq_tick_play sinQ piQ t r evs g h, tick_play_score]

set_option maxRecDepth 400000 in
/-- C4 witness: the pipe that just crossed the scoring line is scored after
one frame, and stays scored after another frame. -/
theorem c4_witness :
    (pipeIter ⟨2, 100, 350, false⟩ 1).scored = true
    ∧ (pipeIter ⟨2, 100, 350, false⟩ 2).scored = true :=
  ⟨by with_unfolding_all decide,
    c4_scored_once.2.2.1 ⟨2, 100, 350, false⟩ 1 (by with_unfolding_all decide)⟩

/-- C5: hit_object, the only transition into the game_over state, sets the
high score to the maximum of the old high score and the score at the
collision and leaves the score unchanged; the high score never decreases
across any loop iteration; an active iteration with no pipe overlap leaves
the high score unchanged and the state in play; a non-play iteration leaves
the high score unchanged; and an active frame whose single overlapping pipe
is p ends the session with high score equal to the maximum of the old high
score and the score at the collision (the old score plus the points scored
by the pipes processed before p). -/
theorem c5_high_score_update :
    (∀ g : GameState,
        (hit_object g).high_score = max g.high_score g.score
        ∧ (hit_object g).state = GState.game_over
        ∧ (hit_object g).score = g.score)
    ∧ (∀ (sinQ : ℚ → ℚ) (piQ : ℚ) (t r : Int) (evs : List GEvent) (g : GameState),
        g.high_score ≤ (on_tick sinQ piQ t r evs g).high_score)
    ∧ (∀ (sinQ : ℚ → ℚ) (piQ : ℚ) (t r : Int) (evs : List GEvent) (g : GameState),
        (evs.foldl handle_event g).state = GState.play →
        (∀ p ∈ (evs.foldl handle_event g).pipes,
          hitTest (ball_rect (ball_step_y (evs.foldl handle_event g).ball_y
            (evs.foldl handle_event g).ball_vel)) (advancePipe p) = false) →
        (on_tick sinQ piQ t r evs g).high_score = g.high_score
        ∧ (on_tick sinQ piQ t r evs g).state = GState.play)
    ∧ (∀ (sinQ : ℚ → ℚ) (piQ : ℚ) (t r : Int) (evs : List GEvent) (g : GameState),
        (evs.foldl handle_event g).state ≠ GState.play →
        (on_tick sinQ piQ t r evs g).high_score = g.high_score)
    ∧ (∀ (t r : Int) (g : GameState) (l₁ : List Pipe) (p : Pipe) (l₂ : List Pipe),
        g.state = GState.play → g.pipes = l₁ ++ p :: l₂ →
        (∀ q ∈ l₁,
          hitTest (ball_rect (ball_step_y g.ball_y g.ball_vel)) (advancePipe q) = false) →
        hitTest (ball_rect (ball_step_y g.ball_y g.ball_vel)) (advancePipe p) = true →
        (∀ q ∈ l₂,
          hitTest (ball_rect (ball_step_y g.ball_y g.ball_vel)) (advancePipe q) = false) →
        (tick_play t r g).high_score =
          max g.high_score (g.score + l₁.countP newlyScored)
        ∧ (tick_play t r g).state = GState.game_over) := by
  refine ⟨?_, ?_, ?_, ?_, ?_⟩
  · intro g
    exact ⟨hit_object_high g, rfl, rfl⟩
  · intro sinQ piQ t r evs g
    by_cases h : (evs.foldl handle_event g).state = GState.play
    · rw [on_tick_eq_tick_play sinQ piQ t r evs g h]
      calc g.high_score = (evs.foldl handle_event g).high_score :=
            (foldl_handle_event_high evs g).symm
        _ ≤ _ := tick_play_high_le t r (evs.foldl handle_event g)
    · rw [on_tick_eq_idle sinQ piQ t r evs g h, idle_float_high,
        foldl_handle_event_high]
  · intro sinQ piQ t r evs g h hmiss
    rw [on_tick_eq_tick_play sinQ piQ t r evs g h]
    refine ⟨?_, ?_⟩
    · rw [tick_play_high_nohit t r _ hmiss, foldl_handle_event_high]
    · rw [tick_play_state, h]
      rw [if_neg]
      rw [List.any_eq_true]
      rintro ⟨p, hp, hhit⟩
      rw [hmiss p hp] at hhit
      exact Bool.false_ne_true hhit
  · intro sinQ piQ t r evs g h
    rw [on_tick_eq_idle sinQ piQ t r evs g h, idle_float_high,
      foldl_handle_event_high]
  · intro t r g l₁ p l₂ hplay hsplit h1 hp h2
    refine ⟨tick_play_high_first t r g l₁ p l₂ hsplit h1 hp h2, ?_⟩
    rw [tick_play_state, if_pos]
    rw [List.any_eq_true]
    refine ⟨p, ?_, hp⟩
    rw [hsplit]
    exact List.mem_append_right l₁ (List.mem_cons_self p l₂)

set_option maxRecDepth 400000 in
/-- C5 witness: with score 3 and high score 1, a collision on this tick ends
the session with high score 3. -/
theorem c5_witness :
    (tick_play 0 0 ⟨560, 0, 3, 1, [⟨103, 100, 350, false⟩], 1000000,
        GState.play⟩).high_score = 3
    ∧ (tick_play 0 0 ⟨560, 0, 3, 1, [⟨103, 100, 350, false⟩], 1000000,
        GState.play⟩).state = GState.game_over :=
  have h := c5_high_score_update.2.2.2.2 0 0
    ⟨560, 0, 3, 1, [⟨103, 100, 350, false⟩], 1000000, GState.play⟩
    [] ⟨103, 100, 350, false⟩ [] rfl rfl
    (by intro q hq; cases hq) (by with_unfolding_all decide)
    (by intro q hq; cases hq)
  ⟨h.1.trans (by with_unfolding_all decide), h.2⟩

/-- C6: the activate press in the start or game_over state calls reset_game;
reset_game yields score 0, no pipes, the ball at the vertical center of the
play area with zero velocity, the play state and an untouched high score; its
spawn timer -1500 is strictly below every non-negative timestamp, so the
very next active frame spawns a pipe. -/
theorem c6_reset :
    (∀ g : GameState, g.state = GState.start ∨ g.state = GState.game_over →
        handle_event g GEvent.space = reset_game g)
    ∧ (∀ g : GameState,
        (reset_game g).score = 0
        ∧ (reset_game g).pipes = []
        ∧ (reset_game g).ball_y = ((HEIGHT / 2 : Int) : ℚ)
        ∧ (reset_game g).ball_vel = 0
        ∧ (reset_game g).state = GState.play
        ∧ (reset_game g).high_score = g.high_score)
    ∧ (∀ (g : GameState) (t : Int), 0 ≤ t → (reset_game g).next_pipe_time < t)
    ∧ (∀ (sinQ : ℚ → ℚ) (piQ : ℚ) (t r : Int) (g : GameState), 0 ≤ t →
        (on_tick sinQ piQ t r [] (reset_game g)).pipes =
          [{ x := WIDTH, top_height := r, bottom_y := r + pipe_gap, scored := false }]) := by
  refine ⟨?_, ?_, ?_, ?_⟩
  · intro g h
    rcases h with h | h <;> simp [handle_event, h]
  · intro g
    exact ⟨rfl, rfl, rfl, rfl, rfl, rfl⟩
  · intro g t ht
    show (-1500 : Int) < t
    omega
  · intro sinQ piQ t r g ht
    rw [on_tick_eq_tick_play sinQ piQ t r [] (reset_game g) rfl, tick_play_pipes]
    simp only [List.foldl_nil]
    rw [if_pos (show t > (reset_game g).next_pipe_time from by
      show t > -1500; omega)]
    simp [reset_game]

set_option maxRecDepth 400000 in
/-- C6 witness: pressing space on a concrete start screen resets the session,
and the first frame after the reset spawns exactly one pipe. -/
theorem c6_witness :
    handle_event ⟨1, 2, 3, 4, [⟨5, 6, 7, true⟩], 8, GState.start⟩ GEvent.space =
      reset_game ⟨1, 2, 3, 4, [⟨5, 6, 7, true⟩], 8, GState.start⟩
    ∧ (on_tick (fun _ => 0) 0 5 7 []
        (reset_game ⟨1, 2, 3, 4, [⟨5, 6, 7, true⟩], 8, GState.start⟩)).pipes =
      [{ x := WIDTH, top_height := 7, bottom_y := 7 + pipe_gap, scored := false }] :=
  ⟨c6_reset.1 ⟨1, 2, 3, 4, [⟨5, 6, 7, true⟩], 8, GState.start⟩ (Or.inl rfl),
    c6_reset.2.2.2 (fun _ => 0) 0 5 7 ⟨1, 2, 3, 4, [⟨5, 6, 7, true⟩], 8, GState.start⟩
      (by with_unfolding_all decide)⟩

end FlappyBall

namespace FlappyBall

/-- C7: an active frame whose timestamp has passed the spawn deadline, given
a randint outcome r in its admissible range, appends exactly one pipe at the
right edge of the play area and moves the deadline to the timestamp plus
1500; the claimed range [min_ceiling_margin, HEIGHT - (min_floor_margin +
pipe_gap)] coincides with the randint bounds [50, HEIGHT - 250] of the
source, the spawned gap keeps both margins on screen, and every value of the
range is realized by some randint outcome. -/
theorem c7_spawn_policy (sinQ : ℚ → ℚ) (piQ : ℚ) (t r : Int) (g : GameState)
    (h1 : g.state = GState.play) (h2 : t > g.next_pipe_time)
    (h3 : min_ceiling_margin ≤ r) (h4 : r ≤ HEIGHT - (min_floor_margin + pipe_gap)) :
    (on_tick sinQ piQ t r [] g).pipes =
        (g.pipes.map pipeStep).filter keepPipe ++
          [{ x := WIDTH, top_height := r, bottom_y := r + pipe_gap, scored := false }]
    ∧ (on_tick sinQ piQ t r [] g).next_pipe_time = t + 1500
    ∧ (50 ≤ r ∧ r ≤ HEIGHT - 250)
    ∧ (min_ceiling_margin ≤ r ∧ r + pipe_gap ≤ HEIGHT - min_floor_margin)
    ∧ (∀ v : Int, min_ceiling_margin ≤ v → v ≤ HEIGHT - (min_floor_margin + pipe_gap) →
        (spawn_pipes v g).pipes.getLast? =
          some { x := WIDTH, top_height := v, bottom_y := v + pipe_gap, scored := false }) := by
  refine ⟨?_, ?_, ?_, ?_, ?_⟩
  · rw [on_tick_eq_tick_play sinQ piQ t r [] g h1]
    simp only [List.foldl_nil]
    rw [tick_play_pipes, if_pos h2]
  · rw [on_tick_eq_tick_play sinQ piQ t r [] g h1]
    simp only [List.foldl_nil]
    rw [tick_play_next, if_pos h2]
  · simp only [min_ceiling_margin, min_floor_margin, HEIGHT, pipe_gap] at h3 h4 ⊢
    omega
  · simp only [min_ceiling_margin, min_floor_margin, HEIGHT, pipe_gap] at h3 h4 ⊢
    omega
  · intro v hv1 hv2
    rw [show (spawn_pipes v g).pipes = g.pipes ++
      [({ x := WIDTH, top_height := v, bottom_y := v + pipe_gap, scored := false } : Pipe)] from rfl]
    exact List.getLast?_concat _

set_option maxRecDepth 400000 in
/-- C7 witness: a play state past its deadline at timestamp 1 with randint
outcome 50 spawns one pipe and sets the deadline to 1501. -/
theorem c7_witness :
    (on_tick (fun _ => 0) 0 1 50 [] ⟨300, 0, 0, 0, [], 0, GState.play⟩).pipes =
        [{ x := WIDTH, top_height := 50, bottom_y := 50 + pipe_gap, scored := false }]
    ∧ (on_tick (fun _ => 0) 0 1 50 [] ⟨300, 0, 0, 0, [], 0, GState.play⟩).next_pipe_time =
        1501 :=
  have h := c7_spawn_policy (fun _ => 0) 0 1 50 ⟨300, 0, 0, 0, [], 0, GState.play⟩
    rfl (by with_unfolding_all decide) (by with_unfolding_all decide)
    (by with_unfolding_all decide)
  ⟨h.1.trans (by with_unfolding_all decide), h.2.1⟩

/-- C9: a loop iteration in the start or game_over state whose event batch
contains no space press changes nothing but the ball vertical position, which
is recomputed from the timestamp alone as HEIGHT // 2 plus amplitude 10 times
the sine oracle applied to (t mod 800) * 2 * pi / 800, independent of score
and obstacles: two such states get the same ball position. -/
theorem c9_idle_tick (sinQ : ℚ → ℚ) (piQ : ℚ) (t r : Int) (evs : List GEvent)
    (g : GameState) (h1 : g.state ≠ GState.play)
    (h2 : ∀ e ∈ evs, e ≠ GEvent.space) :
    on_tick sinQ piQ t r evs g =
      { g with ball_y := ((HEIGHT / 2 : Int) : ℚ) +
          10 * sinQ ((((t % 800) : Int) : ℚ) * 2 * piQ / 800) }
    ∧ (∀ g2 : GameState, g2.state ≠ GState.play →
        (on_tick sinQ piQ t r evs g).ball_y = (on_tick sinQ piQ t r evs g2).ball_y) := by
  have hng := foldl_handle_event_nospace evs g h2
  constructor
  · rw [on_tick_eq_idle sinQ piQ t r evs g (by rw [hng]; exact h1), hng]
    rfl
  · intro g2 hg2
    have hng2 := foldl_handle_event_nospace evs g2 h2
    rw [on_tick_eq_idle sinQ piQ t r evs g (by rw [hng]; exact h1), hng,
      on_tick_eq_idle sinQ piQ t r evs g2 (by rw [hng2]; exact hg2), hng2]
    rfl

set_option maxRecDepth 400000 in
/-- C9 witness: a concrete start-screen state with one ignored event keeps
every field except the oscillated ball position. -/
theorem c9_witness :
    on_tick (fun _ => 1) 3 5 0 [GEvent.other] ⟨0, 0, 6, 4, [], 9, GState.start⟩ =
      { (⟨0, 0, 6, 4, [], 9, GState.start⟩ : GameState) with
        ball_y := ((HEIGHT / 2 : Int) : ℚ) +
          10 * (fun _ : ℚ => (1 : ℚ)) ((((5 % 800 : Int)) : ℚ) * 2 * 3 / 800) } :=
  (c9_idle_tick (fun _ => 1) 3 5 0 [GEvent.other] ⟨0, 0, 6, 4, [], 9, GState.start⟩
    (by with_unfolding_all decide) (by with_unfolding_all decide)).1

/-- C10: a pipe created by the spawn step of an active frame is untouched by
the rest of that frame: the frame ends with that pipe appended with its x
still at WIDTH and its scored flag still false; the score ignores it; the
resulting state, score and high score do not depend on the randint outcome at
all; and when the following frame is active and below its spawn deadline the
new pipe is advanced for the first time, to x = WIDTH - pipe_speed. -/
theorem c10_spawn_deferred (sinQ : ℚ → ℚ) (piQ : ℚ) (t r : Int) (g : GameState)
    (h1 : g.state = GState.play) (h2 : t > g.next_pipe_time) :
    (on_tick sinQ piQ t r [] g).pipes =
        (g.pipes.map pipeStep).filter keepPipe ++
          [{ x := WIDTH, top_height := r, bottom_y := r + pipe_gap, scored := false }]
    ∧ (on_tick sinQ piQ t r [] g).score = g.score + g.pipes.countP newlyScored
    ∧ (∀ r2 : Int,
        (on_tick sinQ piQ t r2 [] g).state = (on_tick sinQ piQ t r [] g).state
        ∧ (on_tick sinQ piQ t r2 [] g).score = (on_tick sinQ piQ t r [] g).score
        ∧ (on_tick sinQ piQ t r2 [] g).high_score =
            (on_tick sinQ piQ t r [] g).high_score)
    ∧ (∀ t2 r2 : Int, (on_tick sinQ piQ t r [] g).state = GState.play →
        ¬(t2 > (on_tick sinQ piQ t r [] g).next_pipe_time) →
        (on_tick sinQ piQ t2 r2 [] (on_tick sinQ piQ t r [] g)).pipes.getLast? =
          some { x := WIDTH - pipe_speed, top_height := r, bottom_y := r + pipe_gap, scored := false }) := by
  have hpipes : (on_tick sinQ piQ t r [] g).pipes =
      (g.pipes.map pipeStep).filter keepPipe ++
        [{ x := WIDTH, top_height := r, bottom_y := r + pipe_gap, scored := false }] := by
    rw [on_tick_eq_tick_play sinQ piQ t r [] g h1]
    simp only [List.foldl_nil]
    rw [tick_play_pipes, if_pos h2]
  refine ⟨hpipes, ?_, ?_, ?_⟩
  · rw [on_tick_eq_tick_play sinQ piQ t r [] g h1]
    simp only [List.foldl_nil]
    rw [tick_play_score]
  · intro r2
    refine ⟨?_, ?_, ?_⟩
    · rw [on_tick_eq_tick_play sinQ piQ t r2 [] g h1,
        on_tick_eq_tick_play sinQ piQ t r [] g h1, tick_play_state, tick_play_state]
    · rw [on_tick_eq_tick_play sinQ piQ t r2 [] g h1,
        on_tick_eq_tick_play sinQ piQ t r [] g h1, tick_play_score, tick_play_score]
    · rw [on_tick_eq_tick_play sinQ piQ t r2 [] g h1,
        on_tick_eq_tick_play sinQ piQ t r [] g h1]
      simp only [List.foldl_nil]
      unfold tick_play
      rw [spawn_phase_high, spawn_phase_high]
  · intro t2 r2 hs hn
    have hstep : pipeStep { x := WIDTH, top_height := r, bottom_y := r + pipe_gap, scored := false } = { x := WIDTH - pipe_speed, top_height := r, bottom_y := r + pipe_gap, scored := false } := by
      unfold pipeStep newlyScored passedTest advancePipe
      norm_num [ball_x, ball_radius, ball_size, WIDTH, pipe_speed, pipe_width]
    have hkeep : keepPipe { x := WIDTH - pipe_speed, top_height := r, bottom_y := r + pipe_gap, scored := false } = true := by
      norm_num [keepPipe, WIDTH, pipe_speed, pipe_width]
    rw [on_tick_eq_tick_play sinQ piQ t2 r2 [] (on_tick sinQ piQ t r [] g) hs]
    simp only [List.foldl_nil]
    rw [tick_play_pipes, if_neg hn, hpipes, List.map_append, List.filter_append]
    simp only [List.map_cons, List.map_nil, hstep, List.filter_cons, hkeep,
      List.filter_nil, if_true]
    exact List.getLast?_concat _

set_option maxRecDepth 400000 in
/-- C10 witness: the pipe spawned on a first concrete frame still has x WIDTH
at the end of that frame and is advanced to WIDTH - pipe_speed by the next
frame. -/
theorem c10_witness :
    (on_tick (fun _ => 0) 0 0 5 []
        (on_tick (fun _ => 0) 0 1 5 [] ⟨300, 0, 0, 0, [], 0, GState.play⟩)).pipes.getLast? =
      some { x := WIDTH - pipe_speed, top_height := 5, bottom_y := 5 + pipe_gap, scored := false } :=
  (c10_spawn_deferred (fun _ => 0) 0 1 5 ⟨300, 0, 0, 0, [], 0, GState.play⟩
      rfl (by with_unfolding_all decide)).2.2.2 0 5
    (by with_unfolding_all decide) (by with_unfolding_all decide)

end FlappyBall

namespace FlappyBall

set_option maxRecDepth 400000 in
/-- C8 counterexample: for the scenario obstacle (gap_top 100, gap height 250
on the 600-tall screen) the gap spans [100, 350], so a ball whose center ends
the frame at y = 400 while overlapping the obstacle horizontally lies in the
below-gap solid region and the frame ends the session, contradicting the
claimed collision-free pass at y = 400. -/
theorem c8_counterexample :
    (tick_play 0 0 ⟨400, -0.75, 0, 0, [⟨103, 100, 350, false⟩], 1000000, GState.play⟩).ball_y = 400
    ∧ (ball_x - ball_radius < (103 - pipe_speed) + pipe_width
       ∧ 103 - pipe_speed < ball_x + ball_radius)
    ∧ (tick_play 0 0 ⟨400, -0.75, 0, 0, [⟨103, 100, 350, false⟩], 1000000, GState.play⟩).state =
        GState.game_over := by
  with_unfolding_all decide

set_option maxRecDepth 400000 in
/-- C8 amended: for the scenario obstacle (gap_top 100, gap height 250 on the
600-tall screen), a ball whose center ends the frame at y = 225 is inside the
gap and passes the horizontally overlapping obstacle with no collision, the
state staying play and the score untouched; and once the ball left edge is
past the trailing edge of the obstacle the score increments exactly once,
however many frames follow. -/
theorem c8_gap_pass_and_score_once :
    ((tick_play 0 0 ⟨225, -0.75, 5, 0, [⟨103, 100, 350, false⟩], 1000000, GState.play⟩).ball_y = 225
      ∧ (ball_x - ball_radius < (103 - pipe_speed) + pipe_width
         ∧ 103 - pipe_speed < ball_x + ball_radius)
      ∧ (tick_play 0 0 ⟨225, -0.75, 5, 0, [⟨103, 100, 350, false⟩], 1000000, GState.play⟩).state =
          GState.play
      ∧ (tick_play 0 0 ⟨225, -0.75, 5, 0, [⟨103, 100, 350, false⟩], 1000000, GState.play⟩).score = 5)
    ∧ (∀ n : Nat, 1 ≤ n → contribSum ⟨2, 100, 350, false⟩ n = 1)
    ∧ (∀ n : Nat, 1 ≤ n → (pipeIter ⟨2, 100, 350, false⟩ n).scored = true) := by
  refine ⟨by with_unfolding_all decide, ?_, ?_⟩
  · exact contribSum_eq_one_of ⟨2, 100, 350, false⟩ rfl (by with_unfolding_all decide)
  · intro n hn
    exact pipeIter_scored_of_le ⟨2, 100, 350, false⟩ hn (by with_unfolding_all decide)

set_option maxRecDepth 400000 in
/-- C8 witness: after two further frames the scenario pipe has contributed
exactly one point. -/
theorem c8_witness :
    (1 : Nat) ≤ 2 ∧ contribSum ⟨2, 100, 350, false⟩ 2 = 1 :=
  ⟨by decide, c8_gap_pass_and_score_once.2.1 2 (by decide)⟩

end FlappyBall
